import Mathlib

/-!
Verification of the to-do list reducer of `src/tailwind.config.cjs`
(the React app source; `todoReducer`, `handleSubmit`, the `Todo` type and
the `TodoAction` enum).

Modelling conventions (shallow embedding):
* Timestamps (`new Date()`) are modelled as `Nat` milliseconds since the
  epoch; the current time of a reducer call is an explicit parameter
  `now`, since the call is synchronous and single-threaded.
* The freshly generated uuid of a CREATE is an explicit parameter
  `freshId`; the uuid library's uniqueness guarantee becomes an explicit
  hypothesis where a claim needs it.
* `localStorage` holds a single slot `todos`.  The reducer re-reads that
  slot on entry (`const todos = JSON.parse(localStorage.getItem('todos') ?? '[]')`)
  and writes it with `localStorage.setItem`.  The reducer is therefore
  embedded as a function from the in-memory state, the persisted list and
  the action to the pair (returned list, persisted list after the call).
* JavaScript truthiness of the optional `content` string (`if (!content)`)
  is: absent (`none`) or the empty string.
* The representation-level effect of `JSON.stringify`/`JSON.parse` on
  `Date` fields is modelled separately (`StoredTodo`, `roundTripStore`)
  for the serialization round-trip claim; everywhere else the `Nat`
  abstraction of an instant is sound because the reducer only overwrites
  timestamps, never inspects them.
-/

/-- The `Todo` record of the source (`type Todo = { id; content; isDone;
dateCreated; lastModified }`), with both `Date` fields as `Nat`
milliseconds. -/
structure Todo where
  id : String
  content : String
  isDone : Bool
  dateCreated : Nat
  lastModified : Nat
deriving Repr, DecidableEq

/-- The `TodoAction` enum (`CREATE`, `UPDATE`, `DELETE`).  `OTHER` stands
for any unrecognized action value reaching the `default` branch of the
reducer's `switch`. -/
inductive TodoAction where
  | CREATE
  | UPDATE
  | DELETE
  | OTHER
deriving Repr, DecidableEq

/-- The action object `{ type, data? }` dispatched to the reducer.  The
reducer destructures `const { id, content, isDone } = action.data ?? {}`,
so the three optional fields are flattened here; an absent `data` is the
state where all three are `none`. -/
structure ReducerAction where
  type : TodoAction
  id : Option String := none
  content : Option String := none
  isDone : Option Bool := none
deriving Repr, DecidableEq

/-- The in-place field assignment of the UPDATE branch on the found record:
`if (content) todo.content = content` (a non-empty provided content
replaces the old one), `if (typeof isDone === 'boolean') todo.isDone = isDone`,
`todo.lastModified = new Date()`. -/
def applyUpdate (t : Todo) (c : Option String) (d : Option Bool) (now : Nat) : Todo :=
  { t with
    content := match c with
      | some s => if s = "" then t.content else s
      | none => t.content
    isDone := match d with
      | some b => b
      | none => t.isDone
    lastModified := now }

/-- The search `todos.findIndex(todo => todo.id === id)` followed by the in-place
mutation of the record at the found index: replaces the first record whose
id matches with its updated version, returns `none` when `findIndex`
yields `-1`. -/
def updateFirst (i : Option String) (c : Option String) (d : Option Bool) (now : Nat) :
    List Todo → Option (List Todo)
  | [] => none
  | t :: ts =>
    if some t.id = i then some (applyUpdate t c d now :: ts)
    else (updateFirst i c d now ts).map (fun l => t :: l)

/-- The reducer `todoReducer(state, action)` of the source.  `todos` is
the list re-read from `localStorage` on entry; the result is the pair
(list returned to React, contents of the persisted slot after the call).
Branches:
* CREATE: `if (!content) return state` (no write); else append
  `{ id: uuidv4(), content, isDone: false, dateCreated: now, lastModified: now }`
  to `state`, persist and return the appended list.
* DELETE: `todos.filter(todo => todo.id !== id)`, persist and return it.
* UPDATE: find by id in `todos`; if absent return `state` (no write); else
  mutate the found record in place, persist and return `todos`.
* default: return `state` (no write). -/
def todoReducer (state todos : List Todo) (act : ReducerAction) (freshId : String) (now : Nat) :
    List Todo × List Todo :=
  match act.type with
  | .CREATE =>
    match act.content with
    | none => (state, todos)
    | some c =>
      if c = "" then (state, todos)
      else
        let newTodo : Todo :=
          { id := freshId, content := c, isDone := false
            dateCreated := now, lastModified := now }
        (state ++ [newTodo], state ++ [newTodo])
  | .DELETE =>
    let filtered := todos.filter (fun td => decide (¬ some td.id = act.id))
    (filtered, filtered)
  | .UPDATE =>
    match updateFirst act.id act.content act.isDone now todos with
    | none => (state, todos)
    | some arr => (arr, arr)
  | .OTHER => (state, todos)

/-- One dispatched action applied to the pair (in-memory list, persisted
list): `useReducer` feeds the current state and the reducer's return value
becomes the next state. -/
def dispatch (p : List Todo × List Todo) (a : ReducerAction) (freshId : String) (now : Nat) :
    List Todo × List Todo :=
  todoReducer p.1 p.2 a freshId now

/-- A sequence of dispatched actions, each with the fresh uuid and the
clock reading of its call. -/
def run (p : List Todo × List Todo) : List (ReducerAction × String × Nat) → List Todo × List Todo
  | [] => p
  | (a, f, n) :: rest => run (dispatch p a f n) rest

/-- The white-space test of JavaScript's `String.prototype.trim`: the
ASCII white-space and line-terminator characters plus NBSP.  (The
remaining Unicode `Zs` code points JS also strips are irrelevant to the
claims and omitted.) -/
def jsIsWhitespace (ch : Char) : Bool :=
  ch = ' ' || ch = '\t' || ch = '\n' || ch = '\r' ||
    ch = Char.ofNat 11 || ch = Char.ofNat 12 || ch = Char.ofNat 160

/-- JavaScript's `String.prototype.trim`: strip leading and trailing
white space. -/
def jsTrim (s : String) : String :=
  String.mk (((s.data.dropWhile jsIsWhitespace).reverse.dropWhile jsIsWhitespace).reverse)

/-- The submit handler of the `App` component: reads the raw input value,
trims it (`inputRef.current.value.trim()`), refuses to dispatch when the
trimmed content is empty (`if (!content) return`), otherwise dispatches
`{ type: CREATE, data: { content } }`. -/
def handleSubmit (p : List Todo × List Todo) (rawInput : String) (freshId : String) (now : Nat) :
    List Todo × List Todo :=
  let content := jsTrim rawInput
  if content = "" then p
  else dispatch p { type := .CREATE, content := some content } freshId now

/-!
Serialization model for the round-trip claim.  The persisted text is
`JSON.stringify(todos)` and the store is read back with `JSON.parse`.
Per JSON semantics: arrays map to arrays in order, objects to records,
strings and booleans to themselves; a `Date` field is serialized through
`Date.prototype.toJSON`, i.e. `toISOString()`, producing a JSON *string*,
and `JSON.parse` has no reviver here, so the field comes back as a plain
string, not a `Date`.  A timestamp field at runtime is therefore either a
`Date` object (on a freshly created record) or a string (on a record read
back from storage); `JsDate` is that sum.
-/

/-- Zero-pads a decimal numeral to `w` digits, as the fixed-width fields
of `Date.prototype.toISOString` are printed. -/
def padZeros (w n : Nat) : String :=
  let s := toString n
  String.mk (List.replicate (w - s.length) '0') ++ s

/-- Days since 1970-01-01 to the proleptic Gregorian (year, month, day),
the civil-calendar conversion `toISOString` performs. -/
def civilFromDays (z : Nat) : Nat × Nat × Nat :=
  let z' := z + 719468
  let era := z' / 146097
  let doe := z' % 146097
  let yoe := (doe - doe / 1460 + doe / 36524 - doe / 146096) / 365
  let y := yoe + era * 400
  let doy := doe - (365 * yoe + yoe / 4 - yoe / 100)
  let mp := (5 * doy + 2) / 153
  let d := doy - (153 * mp + 2) / 5 + 1
  let m := if mp < 10 then mp + 3 else mp - 9
  (if m ≤ 2 then y + 1 else y, m, d)

/-- The printer `Date.prototype.toISOString` on a timestamp of `ms` milliseconds since
the epoch: `YYYY-MM-DDTHH:mm:ss.sssZ`.  (`Nat` restricts the model to
timestamps at or after the epoch, which covers every `new Date()` the app
produces.) -/
def toISOString (ms : Nat) : String :=
  let days := ms / 86400000
  let rem := ms % 86400000
  let ymd := civilFromDays days
  padZeros 4 ymd.1 ++ "-" ++ padZeros 2 ymd.2.1 ++ "-" ++ padZeros 2 ymd.2.2 ++ "T" ++
    padZeros 2 (rem / 3600000) ++ ":" ++ padZeros 2 (rem % 3600000 / 60000) ++ ":" ++
    padZeros 2 (rem % 60000 / 1000) ++ "." ++ padZeros 3 (rem % 1000) ++ "Z"

/-- A runtime value sitting in a `dateCreated`/`lastModified` field: a
`Date` object, or the string `JSON.parse` left there. -/
inductive JsDate where
  | date (ms : Nat)
  | str (s : String)
deriving Repr, DecidableEq

/-- The content of the JSON string `JSON.stringify` emits for a timestamp
field: a `Date` goes through `toISOString`, a string serializes to
itself. -/
def serializeDate : JsDate → String
  | .date ms => toISOString ms
  | .str s => s

/-- A `Todo` record at the representation level, timestamp fields as the
runtime `JsDate` values. -/
structure StoredTodo where
  id : String
  content : String
  isDone : Bool
  dateCreated : JsDate
  lastModified : JsDate
deriving Repr, DecidableEq

/-- The round trip `JSON.parse(JSON.stringify(t))` on one record: `id`, `content`,
`isDone` come back unchanged, each timestamp field comes back as the
string `serializeDate` produced for it. -/
def roundTripTodo (t : StoredTodo) : StoredTodo :=
  { t with
    dateCreated := .str (serializeDate t.dateCreated)
    lastModified := .str (serializeDate t.lastModified) }

/-- The round trip `JSON.parse(JSON.stringify(store))` on the whole persisted list: an
array round-trips elementwise, in order. -/
def roundTripStore (store : List StoredTodo) : List StoredTodo :=
  store.map roundTripTodo

/-- Every timestamp field of every record is already a string (the shape
of any store read back from the persisted slot). -/
def allDatesStr (store : List StoredTodo) : Prop :=
  ∀ t ∈ store, (∃ s, t.dateCreated = JsDate.str s) ∧ (∃ s, t.lastModified = JsDate.str s)

example : toISOString 0 = "1970-01-01T00:00:00.000Z" := by decide

example :
    todoReducer [] [] { type := .CREATE, content := some "Buy milk" } "u1" 5
      = ([⟨"u1", "Buy milk", false, 5, 5⟩], [⟨"u1", "Buy milk", false, 5, 5⟩]) := by
  decide

example :
    todoReducer [] [] { type := .CREATE, content := some " " } "u1" 5
      = ([⟨"u1", " ", false, 5, 5⟩], [⟨"u1", " ", false, 5, 5⟩]) := by
  decide

example :
    todoReducer [⟨"a", "x", false, 0, 0⟩] [⟨"a", "x", false, 0, 0⟩]
      { type := .DELETE, id := some "a" } "u" 9 = ([], []) := by
  decide

example :
    todoReducer [⟨"a", "x", false, 0, 0⟩] [⟨"a", "x", false, 0, 0⟩]
      { type := .UPDATE, id := some "a", isDone := some true } "u" 9
      = ([⟨"a", "x", true, 0, 9⟩], [⟨"a", "x", true, 0, 9⟩]) := by
  decide

/-! Branch equations of the reducer. -/

lemma todoReducer_other (s t : List Todo) (i : Option String) (c : Option String)
    (d : Option Bool) (f : String) (n : Nat) :
    todoReducer s t ⟨.OTHER, i, c, d⟩ f n = (s, t) := rfl

lemma todoReducer_create_absent (s t : List Todo) (i : Option String) (d : Option Bool)
    (f : String) (n : Nat) :
    todoReducer s t ⟨.CREATE, i, none, d⟩ f n = (s, t) := rfl

lemma todoReducer_create_empty (s t : List Todo) (i : Option String) (d : Option Bool)
    (f : String) (n : Nat) :
    todoReducer s t ⟨.CREATE, i, some "", d⟩ f n = (s, t) := by
  simp [todoReducer]

lemma todoReducer_create_some (s t : List Todo) (i : Option String) (c : String)
    (hc : c ≠ "") (d : Option Bool) (f : String) (n : Nat) :
    todoReducer s t ⟨.CREATE, i, some c, d⟩ f n
      = (s ++ [⟨f, c, false, n, n⟩], s ++ [⟨f, c, false, n, n⟩]) := by
  simp [todoReducer, hc]

lemma todoReducer_delete (s t : List Todo) (i : Option String) (c : Option String)
    (d : Option Bool) (f : String) (n : Nat) :
    todoReducer s t ⟨.DELETE, i, c, d⟩ f n
      = (t.filter fun td => decide (¬ some td.id = i),
         t.filter fun td => decide (¬ some td.id = i)) := rfl

lemma todoReducer_update_of_none (s t : List Todo) (i : Option String) (c : Option String)
    (d : Option Bool) (f : String) (n : Nat) (h : updateFirst i c d n t = none) :
    todoReducer s t ⟨.UPDATE, i, c, d⟩ f n = (s, t) := by
  simp [todoReducer, h]

lemma todoReducer_update_of_some (s t arr : List Todo) (i : Option String) (c : Option String)
    (d : Option Bool) (f : String) (n : Nat) (h : updateFirst i c d n t = some arr) :
    todoReducer s t ⟨.UPDATE, i, c, d⟩ f n = (arr, arr) := by
  simp [todoReducer, h]

/-! Facts about `updateFirst`. -/

lemma updateFirst_eq_none_of_no_match (i : Option String) (c : Option String) (d : Option Bool)
    (n : Nat) (l : List Todo) (h : ∀ u ∈ l, ¬ some u.id = i) :
    updateFirst i c d n l = none := by
  induction l with
  | nil => rfl
  | cons u us ih =>
    rw [updateFirst, if_neg (h u (List.mem_cons_self u us)),
      ih fun v hv => h v (List.mem_cons_of_mem u hv)]
    rfl

lemma updateFirst_first_match (i : Option String) (c : Option String) (d : Option Bool)
    (n : Nat) (t : Todo) (post : List Todo) (ht : some t.id = i) :
    ∀ pre : List Todo, (∀ u ∈ pre, ¬ some u.id = i) →
      updateFirst i c d n (pre ++ t :: post) = some (pre ++ applyUpdate t c d n :: post) := by
  intro pre
  induction pre with
  | nil => intro _; rw [List.nil_append, updateFirst, if_pos ht]; rfl
  | cons u us ih =>
    intro hp
    rw [List.cons_append, updateFirst, if_neg (hp u (List.mem_cons_self u us)),
      ih fun v hv => hp v (List.mem_cons_of_mem u hv)]
    rfl

lemma updateFirst_map_id (i : Option String) (c : Option String) (d : Option Bool) (n : Nat) :
    ∀ (l arr : List Todo), updateFirst i c d n l = some arr →
      arr.map Todo.id = l.map Todo.id := by
  intro l
  induction l with
  | nil => intro arr h; exact absurd h (by simp [updateFirst])
  | cons u us ih =>
    intro arr h
    rw [updateFirst] at h
    by_cases hu : some u.id = i
    · rw [if_pos hu] at h
      cases h
      simp [applyUpdate]
    · rw [if_neg hu] at h
      cases h2 : updateFirst i c d n us with
      | none => rw [h2] at h; cases h
      | some arr2 =>
        rw [h2] at h
        cases h
        simp [ih arr2 h2]

/-! Consistency of the two copies. -/

lemma dispatch_fst_eq_snd (p : List Todo × List Todo) (a : ReducerAction) (f : String)
    (n : Nat) (h : p.1 = p.2) : (dispatch p a f n).1 = (dispatch p a f n).2 := by
  obtain ⟨s, t⟩ := p
  cases h
  obtain ⟨ty, i, c, d⟩ := a
  cases ty with
  | CREATE =>
    cases c with
    | none => rfl
    | some cc =>
      by_cases hc : cc = ""
      · subst hc; rw [dispatch, todoReducer_create_empty]
      · rw [dispatch, todoReducer_create_some s s i cc hc d f n]
  | DELETE => rfl
  | UPDATE =>
    cases h2 : updateFirst i c d n s with
    | none => rw [dispatch, todoReducer_update_of_none s s i c d f n h2]
    | some arr => rw [dispatch, todoReducer_update_of_some s s arr i c d f n h2]
  | OTHER => rfl

lemma run_fst_eq_snd (acts : List (ReducerAction × String × Nat)) :
    ∀ p : List Todo × List Todo, p.1 = p.2 → (run p acts).1 = (run p acts).2 := by
  induction acts with
  | nil => intro p h; exact h
  | cons hd tl ih =>
    intro p h
    obtain ⟨a, f, n⟩ := hd
    exact ih (dispatch p a f n) (dispatch_fst_eq_snd p a f n h)

/-- C1: for every sequence of dispatched actions starting from an
in-memory state equal to the persisted list, after every step the list the
reducer returned equals the contents of the persisted slot, so the two
copies stay consistent throughout. -/
theorem claim1_write_through_consistency (store : List Todo)
    (acts : List (ReducerAction × String × Nat)) :
    (run (store, store) acts).1 = (run (store, store) acts).2 :=
  run_fst_eq_snd acts (store, store) rfl

/-- C3: CREATE with a non-empty content appends exactly one new record at
the end of the current in-memory list (no existing record changed), with
`isDone = false`, `dateCreated = lastModified = now`, carrying the fresh
uuid, and — under the uuid library's freshness guarantee — that id differs
from the id of every record already in the list. -/
theorem claim3_create_appends (state todos : List Todo) (c : String) (hc : c ≠ "")
    (i : Option String) (d : Option Bool) (f : String) (now : Nat)
    (hf : ∀ t ∈ state, t.id ≠ f) :
    todoReducer state todos ⟨.CREATE, i, some c, d⟩ f now
        = (state ++ [⟨f, c, false, now, now⟩], state ++ [⟨f, c, false, now, now⟩])
      ∧ ∀ t ∈ state, t.id ≠ (⟨f, c, false, now, now⟩ : Todo).id :=
  ⟨todoReducer_create_some state todos i c hc d f now, hf⟩

/-- Witness for C3 at a concrete input. -/
theorem claim3_create_appends_witness :
    todoReducer [⟨"a", "x", false, 0, 0⟩] [] ⟨.CREATE, none, some "Buy milk", none⟩ "u1" 7
        = ([⟨"a", "x", false, 0, 0⟩, ⟨"u1", "Buy milk", false, 7, 7⟩],
           [⟨"a", "x", false, 0, 0⟩, ⟨"u1", "Buy milk", false, 7, 7⟩])
      ∧ ∀ t ∈ [(⟨"a", "x", false, 0, 0⟩ : Todo)],
          t.id ≠ (⟨"u1", "Buy milk", false, 7, 7⟩ : Todo).id :=
  claim3_create_appends [⟨"a", "x", false, 0, 0⟩] [] "Buy milk" (by decide) none none "u1" 7
    (by decide)

/-- C4 counterexample: dispatching CREATE with the whitespace-only content
`" "` to the reducer is not a no-op — `" "` is truthy in JavaScript, so
the reducer appends a record whose content is `" "`. -/
theorem claim4_counterexample :
    todoReducer [] [] ⟨.CREATE, none, some " ", none⟩ "u1" 0 ≠ ([], []) := by
  decide

/-- C4 amended: a CREATE whose content is absent or the empty string is a
no-op at the reducer (state returned unchanged, persisted slot untouched);
whitespace-only input is rejected one layer up, in `handleSubmit`, which
trims the raw input and refuses to dispatch when the trimmed content is
empty — so a submit of whitespace-only input leaves both copies
unchanged. -/
theorem claim4_create_empty_noop :
    (∀ (state todos : List Todo) (i : Option String) (d : Option Bool) (f : String) (n : Nat),
        todoReducer state todos ⟨.CREATE, i, none, d⟩ f n = (state, todos))
    ∧ (∀ (state todos : List Todo) (i : Option String) (d : Option Bool) (f : String) (n : Nat),
        todoReducer state todos ⟨.CREATE, i, some "", d⟩ f n = (state, todos))
    ∧ (∀ (p : List Todo × List Todo) (raw f : String) (n : Nat),
        jsTrim raw = "" → handleSubmit p raw f n = p) := by
  refine ⟨fun s t i d f n => todoReducer_create_absent s t i d f n,
    fun s t i d f n => todoReducer_create_empty s t i d f n,
    fun p raw f n h => ?_⟩
  rw [handleSubmit]
  simp [h]

/-- Witness for C4's amended statement at a concrete input. -/
theorem claim4_create_empty_noop_witness :
    handleSubmit ([⟨"a", "x", false, 0, 0⟩], [⟨"a", "x", false, 0, 0⟩]) "   " "u1" 3
      = ([⟨"a", "x", false, 0, 0⟩], [⟨"a", "x", false, 0, 0⟩]) :=
  claim4_create_empty_noop.2.2 ([⟨"a", "x", false, 0, 0⟩], [⟨"a", "x", false, 0, 0⟩])
    "   " "u1" 3 (by decide)

/-- C5: UPDATE on a list whose first record with the given id is `t`
replaces exactly that record in place (both returned and persisted copy):
the replacement keeps `id` and `dateCreated`, takes the provided content
only when it is non-empty, takes the provided `isDone` when present, and
always has `lastModified = now` — strictly later than before whenever the
clock has advanced past the record's previous `lastModified`, whichever
fields were provided. -/
theorem claim5_update_existing (state pre post : List Todo) (t : Todo) (i : String)
    (c : Option String) (d : Option Bool) (f : String) (now : Nat)
    (ht : t.id = i) (hpre : ∀ u ∈ pre, u.id ≠ i) :
    todoReducer state (pre ++ t :: post) ⟨.UPDATE, some i, c, d⟩ f now
        = (pre ++ applyUpdate t c d now :: post, pre ++ applyUpdate t c d now :: post)
      ∧ (applyUpdate t c d now).lastModified = now
      ∧ (t.lastModified < now → t.lastModified < (applyUpdate t c d now).lastModified)
      ∧ (applyUpdate t c d now).id = t.id
      ∧ (applyUpdate t c d now).dateCreated = t.dateCreated
      ∧ (∀ s, c = some s → s ≠ "" → (applyUpdate t c d now).content = s)
      ∧ (c = none ∨ c = some "" → (applyUpdate t c d now).content = t.content)
      ∧ (∀ b, d = some b → (applyUpdate t c d now).isDone = b)
      ∧ (d = none → (applyUpdate t c d now).isDone = t.isDone) := by
  refine ⟨?_, rfl, fun h => h, rfl, rfl, ?_, ?_, ?_, ?_⟩
  · exact todoReducer_update_of_some state (pre ++ t :: post)
      (pre ++ applyUpdate t c d now :: post) (some i) c d f now
      (updateFirst_first_match (some i) c d now t post (by rw [ht])
        pre (fun u hu h => hpre u hu (Option.some_injective String h)))
  · intro s hs hne
    subst hs
    simp [applyUpdate, hne]
  · rintro (hc | hc) <;> subst hc <;> simp [applyUpdate]
  · intro b hb
    subst hb
    simp [applyUpdate]
  · intro hd
    subst hd
    simp [applyUpdate]

/-- Witness for C5 at a concrete input (toggling only `isDone`). -/
theorem claim5_update_existing_witness :
    todoReducer [⟨"a", "x", false, 0, 0⟩] ([] ++ (⟨"a", "x", false, 0, 0⟩ : Todo) :: [])
        ⟨.UPDATE, some "a", none, some true⟩ "u" 5
        = ([] ++ applyUpdate ⟨"a", "x", false, 0, 0⟩ none (some true) 5 :: [],
           [] ++ applyUpdate ⟨"a", "x", false, 0, 0⟩ none (some true) 5 :: [])
      ∧ (applyUpdate (⟨"a", "x", false, 0, 0⟩ : Todo) none (some true) 5).lastModified = 5
      ∧ ((⟨"a", "x", false, 0, 0⟩ : Todo).lastModified < 5 →
          (⟨"a", "x", false, 0, 0⟩ : Todo).lastModified
            < (applyUpdate (⟨"a", "x", false, 0, 0⟩ : Todo) none (some true) 5).lastModified)
      ∧ (applyUpdate (⟨"a", "x", false, 0, 0⟩ : Todo) none (some true) 5).id
          = (⟨"a", "x", false, 0, 0⟩ : Todo).id
      ∧ (applyUpdate (⟨"a", "x", false, 0, 0⟩ : Todo) none (some true) 5).dateCreated
          = (⟨"a", "x", false, 0, 0⟩ : Todo).dateCreated
      ∧ (∀ s, (none : Option String) = some s → s ≠ "" →
          (applyUpdate (⟨"a", "x", false, 0, 0⟩ : Todo) none (some true) 5).content = s)
      ∧ ((none : Option String) = none ∨ (none : Option String) = some "" →
          (applyUpdate (⟨"a", "x", false, 0, 0⟩ : Todo) none (some true) 5).content
            = (⟨"a", "x", false, 0, 0⟩ : Todo).content)
      ∧ (∀ b, (some true : Option Bool) = some b →
          (applyUpdate (⟨"a", "x", false, 0, 0⟩ : Todo) none (some true) 5).isDone = b)
      ∧ ((some true : Option Bool) = none →
          (applyUpdate (⟨"a", "x", false, 0, 0⟩ : Todo) none (some true) 5).isDone
            = (⟨"a", "x", false, 0, 0⟩ : Todo).isDone) :=
  claim5_update_existing [⟨"a", "x", false, 0, 0⟩] [] [] ⟨"a", "x", false, 0, 0⟩ "a"
    none (some true) "u" 5 rfl (by decide)

/-- C6: an UPDATE whose id matches no record of the persisted list is a
silent no-op: the reducer returns the in-memory state argument itself (not
the re-read list) and leaves the persisted slot untouched. -/
theorem claim6_update_missing (state todos : List Todo) (i : Option String)
    (c : Option String) (d : Option Bool) (f : String) (n : Nat)
    (h : ∀ t ∈ todos, ¬ some t.id = i) :
    todoReducer state todos ⟨.UPDATE, i, c, d⟩ f n = (state, todos) :=
  todoReducer_update_of_none state todos i c d f n
    (updateFirst_eq_none_of_no_match i c d n todos h)

/-- Witness for C6 at a concrete input where the in-memory state differs
from the persisted list: the returned value is the in-memory state. -/
theorem claim6_update_missing_witness :
    todoReducer [⟨"a", "x", false, 0, 0⟩] [⟨"b", "y", true, 1, 1⟩]
        ⟨.UPDATE, some "z", some "w", some false⟩ "u" 9
      = ([⟨"a", "x", false, 0, 0⟩], [⟨"b", "y", true, 1, 1⟩]) :=
  claim6_update_missing [⟨"a", "x", false, 0, 0⟩] [⟨"b", "y", true, 1, 1⟩]
    (some "z") (some "w") (some false) "u" 9 (by decide)

/-- The filter `todos.filter(todo => todo.id !== id)` keeps a list untouched when no
record's id matches. -/
lemma filter_ne_id_eq_self (i : Option String) (l : List Todo)
    (h : ∀ u ∈ l, ¬ some u.id = i) :
    l.filter (fun td => decide (¬ some td.id = i)) = l := by
  induction l with
  | nil => rfl
  | cons u us ih =>
    rw [List.filter_cons, if_pos (by simpa using h u (List.mem_cons_self u us)),
      ih fun v hv => h v (List.mem_cons_of_mem u hv)]

/-- C7: DELETE on a persisted list containing exactly one record with the
given id removes exactly that record; every other record is kept unchanged
in its original relative order, in both the returned and the persisted
copy. -/
theorem claim7_delete_existing (state pre post : List Todo) (t : Todo) (i : String)
    (c : Option String) (d : Option Bool) (f : String) (n : Nat)
    (ht : t.id = i) (hpre : ∀ u ∈ pre, u.id ≠ i) (hpost : ∀ u ∈ post, u.id ≠ i) :
    todoReducer state (pre ++ t :: post) ⟨.DELETE, some i, c, d⟩ f n
      = (pre ++ post, pre ++ post) := by
  rw [todoReducer_delete]
  have heq : (pre ++ t :: post).filter (fun td => decide (¬ some td.id = some i))
      = pre ++ post := by
    rw [List.filter_append, List.filter_cons,
      filter_ne_id_eq_self (some i) pre (fun u hu h => hpre u hu (Option.some_injective String h)),
      filter_ne_id_eq_self (some i) post (fun u hu h => hpost u hu (Option.some_injective String h))]
    simp [ht]
  rw [heq]

/-- Witness for C7 at a concrete input. -/
theorem claim7_delete_existing_witness :
    todoReducer [⟨"b", "y", true, 1, 1⟩]
        ([⟨"b", "y", true, 1, 1⟩] ++ (⟨"a", "x", false, 0, 0⟩ : Todo) :: [⟨"c", "z", false, 2, 2⟩])
        ⟨.DELETE, some "a", none, none⟩ "u" 9
      = ([⟨"b", "y", true, 1, 1⟩] ++ [⟨"c", "z", false, 2, 2⟩],
         [⟨"b", "y", true, 1, 1⟩] ++ [⟨"c", "z", false, 2, 2⟩]) :=
  claim7_delete_existing [⟨"b", "y", true, 1, 1⟩] [⟨"b", "y", true, 1, 1⟩]
    [⟨"c", "z", false, 2, 2⟩] ⟨"a", "x", false, 0, 0⟩ "a" none none "u" 9
    rfl (by decide) (by decide)

/-- C8: DELETE with an id matching no record of the persisted list returns
that list with the same records in the same order, the persisted copy
unchanged, and raises nothing. -/
theorem claim8_delete_missing (state todos : List Todo) (i : Option String)
    (c : Option String) (d : Option Bool) (f : String) (n : Nat)
    (h : ∀ t ∈ todos, ¬ some t.id = i) :
    todoReducer state todos ⟨.DELETE, i, c, d⟩ f n = (todos, todos) := by
  rw [todoReducer_delete, filter_ne_id_eq_self i todos h]

/-- Witness for C8 at a concrete input. -/
theorem claim8_delete_missing_witness :
    todoReducer [⟨"a", "x", false, 0, 0⟩] [⟨"a", "x", false, 0, 0⟩, ⟨"b", "y", true, 1, 1⟩]
        ⟨.DELETE, some "z", none, none⟩ "u" 9
      = ([⟨"a", "x", false, 0, 0⟩, ⟨"b", "y", true, 1, 1⟩],
         [⟨"a", "x", false, 0, 0⟩, ⟨"b", "y", true, 1, 1⟩]) :=
  claim8_delete_missing [⟨"a", "x", false, 0, 0⟩]
    [⟨"a", "x", false, 0, 0⟩, ⟨"b", "y", true, 1, 1⟩] (some "z") none none "u" 9 (by decide)

/-- C9: dispatching DELETE for the same id twice in succession yields the
same pair (returned list, persisted list) as dispatching it once — the
second application is a no-op, for every starting pair and every id. -/
theorem claim9_delete_idempotent (state todos : List Todo) (i : Option String)
    (f1 f2 : String) (n1 n2 : Nat) :
    dispatch (dispatch (state, todos) ⟨.DELETE, i, none, none⟩ f1 n1)
        ⟨.DELETE, i, none, none⟩ f2 n2
      = dispatch (state, todos) ⟨.DELETE, i, none, none⟩ f1 n1 := by
  have hmem : ∀ t ∈ todos.filter (fun td => decide (¬ some td.id = i)), ¬ some t.id = i := by
    intro t htt
    have := List.of_mem_filter htt
    simpa using this
  simp only [dispatch, todoReducer_delete]
  rw [filter_ne_id_eq_self i _ hmem]

/-- C10: every reducer action preserves uniqueness of ids, in both the
in-memory and the persisted copy, given that the freshly generated uuid of
a CREATE differs from every id already present. -/
theorem claim10_unique_ids (state todos : List Todo) (a : ReducerAction) (f : String) (n : Nat)
    (hs : (state.map Todo.id).Nodup) (ht : (todos.map Todo.id).Nodup)
    (hf : f ∉ state.map Todo.id) :
    (((todoReducer state todos a f n).1.map Todo.id).Nodup)
      ∧ (((todoReducer state todos a f n).2.map Todo.id).Nodup) := by
  obtain ⟨ty, i, c, d⟩ := a
  cases ty with
  | CREATE =>
    cases c with
    | none => rw [todoReducer_create_absent]; exact ⟨hs, ht⟩
    | some cc =>
      by_cases hc : cc = ""
      · subst hc; rw [todoReducer_create_empty]; exact ⟨hs, ht⟩
      · rw [todoReducer_create_some state todos i cc hc d f n]
        have hnew : (state.map Todo.id ++ [f]).Nodup := by
          rw [List.nodup_append]
          exact ⟨hs, List.nodup_singleton f, by simpa using hf⟩
        constructor <;> simpa using hnew
  | DELETE =>
    rw [todoReducer_delete]
    have hsub : List.Sublist
        ((todos.filter fun td => decide (¬ some td.id = i)).map Todo.id)
        (todos.map Todo.id) :=
      (List.filter_sublist todos).map Todo.id
    exact ⟨List.Nodup.sublist hsub ht, List.Nodup.sublist hsub ht⟩
  | UPDATE =>
    cases h2 : updateFirst i c d n todos with
    | none => rw [todoReducer_update_of_none state todos i c d f n h2]; exact ⟨hs, ht⟩
    | some arr =>
      rw [todoReducer_update_of_some state todos arr i c d f n h2]
      have harr := updateFirst_map_id i c d n todos arr h2
      refine ⟨?_, ?_⟩ <;>
        · show ((arr.map Todo.id)).Nodup
          rw [harr]
          exact ht
  | OTHER => rw [todoReducer_other]; exact ⟨hs, ht⟩

/-- Witness for C10 at a concrete input. -/
theorem claim10_unique_ids_witness :
    (((todoReducer [⟨"a", "x", false, 0, 0⟩] [⟨"a", "x", false, 0, 0⟩]
        ⟨.CREATE, none, some "y", none⟩ "b" 3).1.map Todo.id).Nodup)
      ∧ (((todoReducer [⟨"a", "x", false, 0, 0⟩] [⟨"a", "x", false, 0, 0⟩]
        ⟨.CREATE, none, some "y", none⟩ "b" 3).2.map Todo.id).Nodup) :=
  claim10_unique_ids [⟨"a", "x", false, 0, 0⟩] [⟨"a", "x", false, 0, 0⟩]
    ⟨.CREATE, none, some "y", none⟩ "b" 3 (by decide) (by decide) (by decide)

/-- C2 counterexample: a store holding one freshly created record (whose
timestamp fields are `Date` objects) does not round-trip to an identical
list — `JSON.parse` leaves the timestamps as ISO strings, not `Date`s. -/
theorem claim2_counterexample :
    roundTripStore [⟨"a", "x", false, JsDate.date 0, JsDate.date 0⟩]
      ≠ [⟨"a", "x", false, JsDate.date 0, JsDate.date 0⟩] := by
  decide

/-- C2 amended: serialize-then-deserialize preserves the list's length and
order and every record's `id`, `content` and `isDone`; each timestamp
field comes back as the string `toISOString` printed for it, so the
round-trip is idempotent and is the identity exactly on stores whose
timestamp fields are already strings — the shape of any store previously
read back from the persisted slot. -/
theorem claim2_roundtrip :
    (∀ store : List StoredTodo,
        (roundTripStore store).map StoredTodo.id = store.map StoredTodo.id
        ∧ (roundTripStore store).map StoredTodo.content = store.map StoredTodo.content
        ∧ (roundTripStore store).map StoredTodo.isDone = store.map StoredTodo.isDone
        ∧ (roundTripStore store).length = store.length)
    ∧ (∀ store : List StoredTodo, roundTripStore (roundTripStore store) = roundTripStore store)
    ∧ (∀ store : List StoredTodo, allDatesStr store → roundTripStore store = store) := by
  refine ⟨fun store => ⟨?_, ?_, ?_, ?_⟩, fun store => ?_, fun store h => ?_⟩
  · simp [roundTripStore, roundTripTodo, List.map_map, Function.comp]
  · simp [roundTripStore, roundTripTodo, List.map_map, Function.comp]
  · simp [roundTripStore, roundTripTodo, List.map_map, Function.comp]
  · simp [roundTripStore]
  · simp [roundTripStore, roundTripTodo, List.map_map, Function.comp, serializeDate]
  · induction store with
    | nil => rfl
    | cons t ts ih =>
      obtain ⟨⟨s1, h1⟩, s2, h2⟩ := h t (List.mem_cons_self t ts)
      have hts : roundTripStore ts = ts :=
        ih fun u hu => h u (List.mem_cons_of_mem t hu)
      have hone : roundTripTodo t = t := by
        obtain ⟨tid, tc, td, tdc, tlm⟩ := t
        simp only [StoredTodo.mk.injEq] at h1 h2 ⊢
        subst h1
        subst h2
        simp [roundTripTodo, serializeDate]
      show roundTripTodo t :: roundTripStore ts = t :: ts
      rw [hone, hts]

/-- Witness for C2's amended statement: the identity part at a concrete
already-deserialized store. -/
theorem claim2_roundtrip_witness :
    roundTripStore [⟨"a", "x", false, JsDate.str "1970-01-01T00:00:00.000Z",
        JsDate.str "1970-01-01T00:00:00.000Z"⟩]
      = [⟨"a", "x", false, JsDate.str "1970-01-01T00:00:00.000Z",
          JsDate.str "1970-01-01T00:00:00.000Z"⟩] :=
  claim2_roundtrip.2.2 _ (by
    intro t htt
    rw [List.mem_singleton] at htt
    subst htt
    exact ⟨⟨_, rfl⟩, ⟨_, rfl⟩⟩)
